import Mathlib

/-!
Shallow embedding of the `freestuffapi` Rust client library
(`src/api.rs`, `src/client.rs`).

JSON documents are modelled by an inductive `Json` type; JSON numbers are
modelled as `Int` (no claim depends on floating-point semantics, only on
the shape of the decoded structures).  Serde-derived deserializers are
modelled as functions `Json → Option T`, with `none` standing for a decode
error.  The serde conventions reproduced here:
  * a struct deserializes from a JSON object; a field of type `Option<T>`
    may be missing (yielding `None`) and accepts `null`; any other field is
    required;
  * unknown keys are ignored unless the struct is `deny_unknown_fields`;
  * an `untagged` enum tries its variants in declaration order and takes
    the first that succeeds;
  * a `field_identifier` enum with a trailing `Other(String)`/`Unknown(String)`
    variant matches the known (lowercase-renamed) tags exactly and wraps any
    other string in the trailing variant.
-/

namespace Freestuff

/-- JSON values.  Numbers are modelled as `Int`. -/
inductive Json where
  | null
  | bool (b : Bool)
  | num (n : Int)
  | str (s : String)
  | arr (elems : List Json)
  | obj (fields : List (String × Json))

/-- Look a key up in the field list of a JSON object (first occurrence). -/
def lookupKey (fields : List (String × Json)) (key : String) : Option Json :=
  (fields.find? (fun f => f.1 == key)).map (fun f => f.2)

/-- Decode a JSON number. -/
def decodeNum : Json → Option Int
  | Json.num n => some n
  | _ => none

/-- Decode a JSON string. -/
def decodeStr : Json → Option String
  | Json.str s => some s
  | _ => none

/-- serde semantics of an `Option<T>` struct field: a missing field and an
explicit `null` decode to `None`; any other value must decode as `T`. -/
def decodeOptField (dec : Json → Option α) : Option Json → Option (Option α)
  | none => some none
  | some Json.null => some none
  | some v => (dec v).map some

/-- serde semantics of a required struct field: it must be present and
decode as `T`. -/
def reqField (dec : Json → Option α) (fields : List (String × Json))
    (key : String) : Option α :=
  lookupKey fields key >>= dec

/-- `ServiceStatus` (src/api.rs): closed enum, `rename_all = "lowercase"`. -/
inductive ServiceStatus where
  | Ok
  | Partial
  | Rebooting
  | Fatal
deriving DecidableEq

/-- Deserialization of `ServiceStatus` from a JSON string: only the four
lowercase tags are accepted, there is no fallback variant. -/
def ServiceStatus.fromTag (s : String) : Option ServiceStatus :=
  if s = "ok" then some ServiceStatus.Ok
  else if s = "partial" then some ServiceStatus.Partial
  else if s = "rebooting" then some ServiceStatus.Rebooting
  else if s = "fatal" then some ServiceStatus.Fatal
  else none

/-- `Store` (src/api.rs): `field_identifier, rename_all = "lowercase"` with an
`Other(String)` catch-all. -/
inductive Store where
  | Steam
  | Epic
  | Humble
  | Gog
  | Origin
  | Uplay
  | Twitch
  | Itch
  | Discord
  | Apple
  | Google
  | Switch
  | Ps
  | Xbox
  | Other (s : String)
deriving DecidableEq

/-- The known lowercase tags of `Store`. -/
def Store.tags : List String :=
  ["steam", "epic", "humble", "gog", "origin", "uplay", "twitch", "itch",
   "discord", "apple", "google", "switch", "ps", "xbox"]

/-- Deserialization of `Store` from a string: a known lowercase tag maps to
its variant, anything else is wrapped verbatim in `Other`; never fails. -/
def Store.fromTag (s : String) : Store :=
  if s = "steam" then Store.Steam
  else if s = "epic" then Store.Epic
  else if s = "humble" then Store.Humble
  else if s = "gog" then Store.Gog
  else if s = "origin" then Store.Origin
  else if s = "uplay" then Store.Uplay
  else if s = "twitch" then Store.Twitch
  else if s = "itch" then Store.Itch
  else if s = "discord" then Store.Discord
  else if s = "apple" then Store.Apple
  else if s = "google" then Store.Google
  else if s = "switch" then Store.Switch
  else if s = "ps" then Store.Ps
  else if s = "xbox" then Store.Xbox
  else Store.Other s

/-- `AnnouncementType` (src/api.rs): `field_identifier, rename_all =
"lowercase"` with an `Unknown(String)` catch-all. -/
inductive AnnouncementType where
  | Free
  | Weekend
  | Discount
  | Ad
  | Unknown (s : String)
deriving DecidableEq

/-- The known lowercase tags of `AnnouncementType`. -/
def AnnouncementType.tags : List String :=
  ["free", "weekend", "discount", "ad"]

/-- Deserialization of `AnnouncementType` from a string; never fails. -/
def AnnouncementType.fromTag (s : String) : AnnouncementType :=
  if s = "free" then AnnouncementType.Free
  else if s = "weekend" then AnnouncementType.Weekend
  else if s = "discount" then AnnouncementType.Discount
  else if s = "ad" then AnnouncementType.Ad
  else AnnouncementType.Unknown s

/-- `ProductKind` (src/api.rs): `field_identifier, rename_all = "lowercase"`
with an `Other(String)` catch-all. -/
inductive ProductKind where
  | Game
  | DLC
  | Software
  | Art
  | OST
  | Book
  | Other (s : String)
deriving DecidableEq

/-- The known lowercase tags of `ProductKind`. -/
def ProductKind.tags : List String :=
  ["game", "dlc", "software", "art", "ost", "book"]

/-- Deserialization of `ProductKind` from a string; never fails. -/
def ProductKind.fromTag (s : String) : ProductKind :=
  if s = "game" then ProductKind.Game
  else if s = "dlc" then ProductKind.DLC
  else if s = "software" then ProductKind.Software
  else if s = "art" then ProductKind.Art
  else if s = "ost" then ProductKind.OST
  else if s = "book" then ProductKind.Book
  else ProductKind.Other s

/-- `GameFlags` (src/api.rs): a newtype over `u8`.  The wrapped byte is a
`Nat` below 256. -/
structure GameFlags where
  val : Nat
deriving DecidableEq

/-- `GameFlags::inner`: get the raw bitflag number. -/
def GameFlags.inner (f : GameFlags) : Nat :=
  f.val

/-- `GameFlags::bit`: `self.0 >> bit & 1 == 1`. -/
def GameFlags.bit (f : GameFlags) (b : Nat) : Bool :=
  (f.val >>> b) &&& 1 == 1

/-- `GameFlags::trash`: low quality game (bit 0). -/
def GameFlags.trash (f : GameFlags) : Bool :=
  f.bit 0

/-- `GameFlags::thirdparty`: third party key provider (bit 1). -/
def GameFlags.thirdparty (f : GameFlags) : Bool :=
  f.bit 1

/-- Deserialization of `GameFlags` from JSON: a newtype struct over `u8`
accepts exactly the integers 0..=255. -/
def decodeGameFlags : Json → Option GameFlags
  | Json.num n => if 0 ≤ n ∧ n ≤ 255 then some ⟨n.toNat⟩ else none
  | _ => none

/-- `Price` (src/api.rs): two independently optional currency amounts. -/
structure Price where
  euro : Option Int
  dollar : Option Int
deriving DecidableEq

/-- Deserialization of `Price`: a JSON object whose optional fields `euro`
and `dollar` may each be missing or `null`; unknown keys are ignored
(`Price` is not `deny_unknown_fields`). -/
def decodePrice : Json → Option Price
  | Json.obj fields => do
      let euro ← decodeOptField decodeNum (lookupKey fields "euro")
      let dollar ← decodeOptField decodeNum (lookupKey fields "dollar")
      pure { euro := euro, dollar := dollar }
  | _ => none

/-- `Thumbnail` (src/api.rs): four required image URLs. -/
structure Thumbnail where
  org : String
  blank : String
  full : String
  tags : String
deriving DecidableEq

/-- Deserialization of `Thumbnail`: a JSON object with the four required
string fields; unknown keys are ignored. -/
def decodeThumbnail : Json → Option Thumbnail
  | Json.obj fields => do
      let org ← reqField decodeStr fields "org"
      let blank ← reqField decodeStr fields "blank"
      let full ← reqField decodeStr fields "full"
      let tags ← reqField decodeStr fields "tags"
      pure { org := org, blank := blank, full := full, tags := tags }
  | _ => none

/-- `object_empty_as_none` (src/api.rs): the field deserializer used for the
`org_price`, `price` and `thumbnail` fields of `GameInfo`.  It deserializes
the untagged enum `Aux<T> { T(T), Empty(Empty), Null }` where `Empty` is a
zero-field `deny_unknown_fields` struct: the variants are tried in
declaration order, so the target type `T` is attempted first, then the
empty object sentinel, then `null`; the last two map to `None`. -/
def object_empty_as_none (dec : Json → Option α) (v : Json) : Option (Option α) :=
  match dec v with
  | some t => some (some t)
  | none =>
    match v with
    | Json.obj [] => some none
    | Json.null => some none
    | _ => none

/-- Decode a JSON array elementwise (`Vec<T>`). -/
def decodeList (dec : Json → Option α) : Json → Option (List α)
  | Json.arr elems => elems.mapM dec
  | _ => none

/-- Decode a JSON object as a key-value mapping (`HashMap<String, T>`),
keeping the fields in document order. -/
def decodeObjMap (dec : Json → Option α) : Json → Option (List (String × α))
  | Json.obj fields => fields.mapM (fun f => (dec f.2).map (fun a => (f.1, a)))
  | _ => none

/-- `Urls` (src/api.rs). -/
structure Urls where
  default : String
  browser : String
  client : Option String
  org : String
deriving DecidableEq

/-- Deserialization of `Urls`: `default`, `browser`, `org` required strings,
`client` optional. -/
def decodeUrls : Json → Option Urls
  | Json.obj fields => do
      let dflt ← reqField decodeStr fields "default"
      let browser ← reqField decodeStr fields "browser"
      let client ← decodeOptField decodeStr (lookupKey fields "client")
      let org ← reqField decodeStr fields "org"
      pure { default := dflt, browser := browser, client := client, org := org }
  | _ => none

/-- `LocalizedGameInfo` (src/api.rs): pre-rendered display strings for one
locale. -/
structure LocalizedGameInfo where
  lang_name : String
  lang_name_en : String
  lang_flag_emoji : String
  platform : String
  claim_long : String
  claim_short : String
  free : String
  header : String
  footer : String
  org_price_eur : String
  org_price_usd : String
  until_ : String
  until_alt : String
  flags : List String
deriving DecidableEq

/-- Deserialization of `LocalizedGameInfo`: thirteen required strings and a
required string list. -/
def decodeLocalizedGameInfo : Json → Option LocalizedGameInfo
  | Json.obj fields =>
    match reqField decodeStr fields "lang_name",
        reqField decodeStr fields "lang_name_en",
        reqField decodeStr fields "lang_flag_emoji",
        reqField decodeStr fields "platform",
        reqField decodeStr fields "claim_long",
        reqField decodeStr fields "claim_short",
        reqField decodeStr fields "free",
        reqField decodeStr fields "header",
        reqField decodeStr fields "footer",
        reqField decodeStr fields "org_price_eur",
        reqField decodeStr fields "org_price_usd",
        reqField decodeStr fields "until",
        reqField decodeStr fields "until_alt",
        reqField (decodeList decodeStr) fields "flags" with
    | some lang_name, some lang_name_en, some lang_flag_emoji, some platform,
      some claim_long, some claim_short, some free, some header, some footer,
      some org_price_eur, some org_price_usd, some until_, some until_alt,
      some flags =>
        some ⟨lang_name, lang_name_en, lang_flag_emoji, platform, claim_long,
              claim_short, free, header, footer, org_price_eur, org_price_usd,
              until_, until_alt, flags⟩
    | _, _, _, _, _, _, _, _, _, _, _, _, _, _ => none
  | _ => none

/-- `GameInfo` (src/api.rs).  The JSON field `type` is renamed to
`game_type`; `rating` and `until` are floats in the source, modelled as
`Int` here. -/
structure GameInfo where
  urls : Urls
  url : String
  org_url : String
  title : String
  org_price : Option Price
  price : Option Price
  thumbnail : Option Thumbnail
  kind : ProductKind
  tags : List String
  description : Option String
  rating : Option Int
  notice : Option String
  until_ : Option Int
  store : Store
  flags : GameFlags
  game_type : AnnouncementType
  localized : Option (List (String × LocalizedGameInfo))
deriving DecidableEq

/-- Deserialization of `GameInfo`.  The fields `org_price`, `price` and
`thumbnail` carry `deserialize_with = "object_empty_as_none"`, which makes
them required (serde's implicit `Option` defaulting does not apply when
`deserialize_with` is given); the plain `Option` fields `description`,
`rating`, `notice`, `until`, `localized` may be missing or null. -/
def decodeGameInfo : Json → Option GameInfo
  | Json.obj fields =>
    match reqField decodeUrls fields "urls",
        reqField decodeStr fields "url",
        reqField decodeStr fields "org_url",
        reqField decodeStr fields "title",
        reqField (object_empty_as_none decodePrice) fields "org_price",
        reqField (object_empty_as_none decodePrice) fields "price",
        reqField (object_empty_as_none decodeThumbnail) fields "thumbnail",
        reqField (fun v => (decodeStr v).map ProductKind.fromTag) fields "kind",
        reqField (decodeList decodeStr) fields "tags",
        decodeOptField decodeStr (lookupKey fields "description"),
        decodeOptField decodeNum (lookupKey fields "rating"),
        decodeOptField decodeStr (lookupKey fields "notice"),
        decodeOptField decodeNum (lookupKey fields "until"),
        reqField (fun v => (decodeStr v).map Store.fromTag) fields "store",
        reqField decodeGameFlags fields "flags",
        reqField (fun v => (decodeStr v).map AnnouncementType.fromTag) fields "type",
        decodeOptField (decodeObjMap decodeLocalizedGameInfo)
          (lookupKey fields "localized") with
    | some urls, some url, some org_url, some title, some org_price,
      some price, some thumbnail, some kind, some tags, some description,
      some rating, some notice, some until_, some store, some flags,
      some game_type, some localized =>
        some ⟨urls, url, org_url, title, org_price, price, thumbnail, kind,
              tags, description, rating, notice, until_, store, flags,
              game_type, localized⟩
    | _, _, _, _, _, _, _, _, _, _, _, _, _, _, _, _, _ => none
  | _ => none

/-- A game identifier (`GameId = u64` in src/client.rs). -/
abbrev GameId := Nat

/-- Deserialization of a `u64` game identifier: a non-negative integer
below `2^64`. -/
def decodeGameId : Json → Option GameId
  | Json.num n => if 0 ≤ n ∧ n < (2 : Int) ^ 64 then some n.toNat else none
  | _ => none

/-- Decode a JSON boolean. -/
def decodeBool : Json → Option Bool
  | Json.bool b => some b
  | _ => none

/-- `ApiResponse<Data>` (src/client.rs): the response envelope. -/
structure ApiResponse (Data : Type) where
  success : Bool
  error : Option String
  message : Option String
  data : Data

/-- `ApiResponse::into_data` (src/client.rs):
`self.message.map(Err).unwrap_or(Ok(self.data))`. -/
def ApiResponse.into_data (r : ApiResponse Data) : Except String Data :=
  (r.message.map Except.error).getD (Except.ok r.data)

/-- Deserialization of `ApiResponse<Data>`: `success` is a required bool,
`error` and `message` are optional strings, and `data` is a required field
decoded by the payload decoder. -/
def decodeApiResponse (decData : Json → Option Data) :
    Json → Option (ApiResponse Data)
  | Json.obj fields =>
    match reqField decodeBool fields "success",
        decodeOptField decodeStr (lookupKey fields "error"),
        decodeOptField decodeStr (lookupKey fields "message"),
        reqField decData fields "data" with
    | some success, some error, some message, some data =>
        some ⟨success, error, message, data⟩
    | _, _, _, _ => none
  | _ => none

/-- `ClientError` (src/client.rs).  The payload of the `HTTP` variant
(a `reqwest::Error`) is irrelevant to the claims and dropped. -/
inductive ClientError where
  | HTTP
  | InvalidResponse
  | API (msg : String)
  | Ratelimited
deriving DecidableEq

/-- An outgoing HTTP request as the client builds one. -/
structure Request where
  method : String
  url : String
  headers : List (String × String)
deriving DecidableEq

/-- An incoming HTTP response: a status code and a JSON body. -/
structure Response where
  status : Nat
  body : Json

/-- `Client` (src/client.rs): the configured API client.  The reqwest
handle is replaced by an abstract transport passed to each call. -/
structure Client where
  api_domain : String
  api_key : String

/-- `Client::api_endpoint`: `self.api_domain.join(endpoint)`.  `Url::join`
with an absolute-path endpoint on the pathless API domain is string
concatenation. -/
def Client.api_endpoint (c : Client) (endpoint : String) : String :=
  c.api_domain ++ endpoint

/-- The request `Client::send_request` builds: `GET` on the endpoint URL
with `.header(AUTHORIZATION, format!("Basic {}", self.api_key))`. -/
def Client.build_request (c : Client) (endpoint : String) : Request :=
  { method := "GET"
    url := c.api_endpoint endpoint
    headers := [("Authorization", "Basic " ++ c.api_key)] }

/-- `reqwest::StatusCode::is_success`: the 2xx range. -/
def statusIsSuccess (status : Nat) : Bool :=
  200 ≤ status && status ≤ 299

/-- The status dispatch of `Client::send_request`: a success status passes
the response through, 429 (`TOO_MANY_REQUESTS`) is `Ratelimited`, every
other status is `InvalidResponse`. -/
def handle_status (response : Response) : Except ClientError Response :=
  if statusIsSuccess response.status then Except.ok response
  else if response.status = 429 then Except.error ClientError.Ratelimited
  else Except.error ClientError.InvalidResponse

/-- `Client::send_request`: build the authorized `GET` request, execute it
over the transport (a transport failure is `ClientError::HTTP`), then
dispatch on the response status. -/
def Client.send_request (c : Client) (execute : Request → Except Unit Response)
    (endpoint : String) : Except ClientError Response :=
  match execute (c.build_request endpoint) with
  | Except.error _ => Except.error ClientError.HTTP
  | Except.ok response => handle_status response

/-- The shared tail of `game_list`/`game_details`:
`.json::<ApiResponse<T>>().await.map_err(ClientError::HTTP)?
 .into_data().map_err(ClientError::API)`.
A body that fails to decode as the envelope is `ClientError::HTTP`
(reqwest's JSON decode error); a decoded envelope goes through
`into_data`, whose message becomes `ClientError::API`. -/
def decode_and_extract (decData : Json → Option Data) (response : Response) :
    Except ClientError Data :=
  match decodeApiResponse decData response.body with
  | none => Except.error ClientError.HTTP
  | some r =>
    match r.into_data with
    | Except.ok d => Except.ok d
    | Except.error msg => Except.error (ClientError.API msg)

/-- `Client::game_list`: `GET /v1/games/{category}`, decoded as an envelope
around a `Vec<GameId>`. -/
def Client.game_list (c : Client) (execute : Request → Except Unit Response)
    (category : String) : Except ClientError (List GameId) :=
  match c.send_request execute ("/v1/games/" ++ category) with
  | Except.error e => Except.error e
  | Except.ok response => decode_and_extract (decodeList decodeGameId) response

/-- The `+`-joined identifier segment of `game_details`:
`games.iter().map(to_string).reduce(|acc, id| format!("{acc}+{id}"))`
(`None` on an empty batch, where the source would panic via `expect`; the
caller has already returned by then). -/
def joinIds (games : List GameId) : Option String :=
  match games.map (fun id => toString id) with
  | [] => none
  | x :: xs => some (xs.foldl (fun acc id => acc ++ "+" ++ id) x)

/-- The spec's description of the identifier segment: the decimal string
forms of the identifiers "joined by the literal `+`", in the order given. -/
def plusJoined : List String → String
  | [] => ""
  | [x] => x
  | x :: xs => x ++ "+" ++ plusJoined xs

/-- `Client::game_details`: an empty batch short-circuits to an empty map
with no request; otherwise one `GET /v1/game/{id1}+...+{idN}/info` request
is sent and decoded as an envelope around a `HashMap<String, GameInfo>`.
The first component of the result records every request handed to the
transport during the call. -/
def Client.game_details (c : Client) (execute : Request → Except Unit Response)
    (games : List GameId) :
    List Request × Except ClientError (List (String × GameInfo)) :=
  match games with
  | [] => ([], Except.ok [])
  | g :: gs =>
    let ids := (gs.map (fun id => toString id)).foldl
      (fun acc id => acc ++ "+" ++ id) (toString g)
    let path := "/v1/game/" ++ ids ++ "/info"
    ([c.build_request path],
      match c.send_request execute path with
      | Except.error e => Except.error e
      | Except.ok response =>
        decode_and_extract (decodeObjMap decodeGameInfo) response)

end Freestuff

namespace Freestuff

/-! ### Helper lemmas -/

/-- The left fold `game_details` uses to join identifiers produces the
`+`-joined string. -/
theorem foldl_plus_eq_plusJoined (xs : List String) (x : String) :
    xs.foldl (fun acc id => acc ++ "+" ++ id) x = plusJoined (x :: xs) := by
  induction xs generalizing x with
  | nil => rfl
  | cons y ys ih =>
    rw [List.foldl_cons, ih]
    cases ys with
    | nil => rfl
    | cons z zs => simp [plusJoined, String.append_assoc]

/-! ### The claims -/

/-- C1: the spec claims the empty object `{}` decodes to `None` for all
three coalesced `GameInfo` fields and that the decoder never produces a
present-but-empty struct from `{}`.  That holds for `thumbnail`, but for
the `Price`-typed fields `org_price`/`price` the untagged helper tries
`Price` before the empty-object sentinel, and `Price` — both of whose
fields are optional — accepts `{}`, yielding a present-but-empty struct.
`null` decodes to `None` for all three fields, and a non-empty object
either fully decodes or fails. -/
theorem c1_empty_object_coalescing :
    object_empty_as_none decodePrice (Json.obj []) =
      some (some { euro := none, dollar := none }) ∧
    object_empty_as_none decodePrice Json.null = some none ∧
    object_empty_as_none decodeThumbnail (Json.obj []) = some none ∧
    object_empty_as_none decodeThumbnail Json.null = some none ∧
    object_empty_as_none decodeThumbnail
      (Json.obj [("org", Json.str "o"), ("blank", Json.str "b"),
                 ("full", Json.str "f"), ("tags", Json.str "t")]) =
      some (some { org := "o", blank := "b", full := "f", tags := "t" }) ∧
    object_empty_as_none decodeThumbnail (Json.obj [("org", Json.str "o")]) =
      none :=
  ⟨rfl, rfl, rfl, rfl, rfl, rfl⟩

/-- C2: `into_data` surfaces the message as an API-level error whenever
the envelope carries one — whatever `success` and `data` hold — and
returns the data exactly when the message is absent. -/
theorem c2_into_data_message_priority (Data : Type) (r : ApiResponse Data) :
    (∀ msg, r.message = some msg → r.into_data = Except.error msg) ∧
    (r.message = none → r.into_data = Except.ok r.data) := by
  constructor
  · intro msg h
    simp [ApiResponse.into_data, h]
  · intro h
    simp [ApiResponse.into_data, h]

/-- C3: decoding a `Store`, `ProductKind` or `AnnouncementType` string
never fails: each known lowercase tag yields its closed variant, and any
other string is preserved verbatim (case included) in the `Other`/`Unknown`
fallback.  Each decoder's fallback is quantified over its own string with
only its own tag set excluded, so a string that is another enum's tag
(e.g. "free" for `Store`) is covered. -/
theorem c3_open_enum_fallback (s t u : String)
    (hs : s ∉ Store.tags) (hp : t ∉ ProductKind.tags)
    (ha : u ∉ AnnouncementType.tags) :
    (Store.fromTag s = Store.Other s ∧
     ProductKind.fromTag t = ProductKind.Other t ∧
     AnnouncementType.fromTag u = AnnouncementType.Unknown u) ∧
    (Store.fromTag "steam" = Store.Steam ∧
     Store.fromTag "epic" = Store.Epic ∧
     Store.fromTag "humble" = Store.Humble ∧
     Store.fromTag "gog" = Store.Gog ∧
     Store.fromTag "origin" = Store.Origin ∧
     Store.fromTag "uplay" = Store.Uplay ∧
     Store.fromTag "twitch" = Store.Twitch ∧
     Store.fromTag "itch" = Store.Itch ∧
     Store.fromTag "discord" = Store.Discord ∧
     Store.fromTag "apple" = Store.Apple ∧
     Store.fromTag "google" = Store.Google ∧
     Store.fromTag "switch" = Store.Switch ∧
     Store.fromTag "ps" = Store.Ps ∧
     Store.fromTag "xbox" = Store.Xbox) ∧
    (ProductKind.fromTag "game" = ProductKind.Game ∧
     ProductKind.fromTag "dlc" = ProductKind.DLC ∧
     ProductKind.fromTag "software" = ProductKind.Software ∧
     ProductKind.fromTag "art" = ProductKind.Art ∧
     ProductKind.fromTag "ost" = ProductKind.OST ∧
     ProductKind.fromTag "book" = ProductKind.Book) ∧
    (AnnouncementType.fromTag "free" = AnnouncementType.Free ∧
     AnnouncementType.fromTag "weekend" = AnnouncementType.Weekend ∧
     AnnouncementType.fromTag "discount" = AnnouncementType.Discount ∧
     AnnouncementType.fromTag "ad" = AnnouncementType.Ad) := by
  simp only [Store.tags, ProductKind.tags, AnnouncementType.tags,
    List.mem_cons, List.not_mem_nil, or_false, not_or] at hs hp ha
  obtain ⟨s1, s2, s3, s4, s5, s6, s7, s8, s9, s10, s11, s12, s13, s14⟩ := hs
  obtain ⟨p1, p2, p3, p4, p5, p6⟩ := hp
  obtain ⟨a1, a2, a3, a4⟩ := ha
  refine ⟨⟨?_, ?_, ?_⟩, by decide, by decide, by decide⟩
  · simp [Store.fromTag, s1, s2, s3, s4, s5, s6, s7, s8, s9, s10, s11, s12,
      s13, s14]
  · simp [ProductKind.fromTag, p1, p2, p3, p4, p5, p6]
  · simp [AnnouncementType.fromTag, a1, a2, a3, a4]

/-- Witness for C3 at cross-tag inputs: "free" is an `AnnouncementType`
tag but not a `Store` tag, "steam" a `Store` tag but not a `ProductKind`
tag, "gog" a `Store` tag but not an `AnnouncementType` tag; each decoder
falls back verbatim. -/
theorem c3_open_enum_fallback_witness :
    Store.fromTag "free" = Store.Other "free" ∧
    ProductKind.fromTag "steam" = ProductKind.Other "steam" ∧
    AnnouncementType.fromTag "gog" = AnnouncementType.Unknown "gog" :=
  (c3_open_enum_fallback "free" "steam" "gog"
    (by decide) (by decide) (by decide)).1

/-- C4: `ServiceStatus` decoding succeeds exactly on the four lowercase
tags and fails on every other string, with no fallback variant. -/
theorem c4_service_status_closed (s : String)
    (h : s ∉ ["ok", "partial", "rebooting", "fatal"]) :
    ServiceStatus.fromTag s = none ∧
    (ServiceStatus.fromTag "ok" = some ServiceStatus.Ok ∧
     ServiceStatus.fromTag "partial" = some ServiceStatus.Partial ∧
     ServiceStatus.fromTag "rebooting" = some ServiceStatus.Rebooting ∧
     ServiceStatus.fromTag "fatal" = some ServiceStatus.Fatal) := by
  simp only [List.mem_cons, List.not_mem_nil, or_false, not_or] at h
  obtain ⟨h1, h2, h3, h4⟩ := h
  exact ⟨by simp [ServiceStatus.fromTag, h1, h2, h3, h4], by decide⟩

/-- Witness for C4: the uppercase "OK" and the unknown "degraded" are
decode errors. -/
theorem c4_service_status_closed_witness :
    ServiceStatus.fromTag "OK" = none ∧
    ServiceStatus.fromTag "degraded" = none :=
  ⟨(c4_service_status_closed "OK" (by decide)).1,
   (c4_service_status_closed "degraded" (by decide)).1⟩

/-- C7: an empty batch returns an empty mapping and hands no request at
all to the transport. -/
theorem c7_game_details_empty_batch (c : Client)
    (execute : Request → Except Unit Response) :
    c.game_details execute [] = ([], Except.ok []) :=
  rfl

/-- C5: when the transport returns a response, `send_request` dispatches
on its status: 429 is the distinct `Ratelimited` error, any other
non-success status is the generic `InvalidResponse`, a success status
passes the response through, and the two error kinds are distinct
constructors. -/
theorem c5_send_request_status_dispatch (c : Client)
    (execute : Request → Except Unit Response) (endpoint : String)
    (response : Response)
    (hexec : execute (c.build_request endpoint) = Except.ok response) :
    (response.status = 429 →
      c.send_request execute endpoint = Except.error ClientError.Ratelimited) ∧
    (statusIsSuccess response.status = false → response.status ≠ 429 →
      c.send_request execute endpoint = Except.error ClientError.InvalidResponse) ∧
    (statusIsSuccess response.status = true →
      c.send_request execute endpoint = Except.ok response) ∧
    ClientError.Ratelimited ≠ ClientError.InvalidResponse := by
  refine ⟨?_, ?_, ?_, by decide⟩
  · intro h
    simp [Client.send_request, hexec, handle_status, statusIsSuccess, h]
  · intro h h429
    simp [Client.send_request, hexec, handle_status, h, h429]
  · intro h
    simp [Client.send_request, hexec, handle_status, h]

/-- Witness for C5: a transport answering 429 makes `send_request` return
`Ratelimited`. -/
theorem c5_send_request_status_dispatch_witness :
    Client.send_request ⟨"https://api.freestuffbot.xyz", "key"⟩
      (fun _ => Except.ok ⟨429, Json.null⟩) "/v1/ping" =
      Except.error ClientError.Ratelimited :=
  (c5_send_request_status_dispatch ⟨"https://api.freestuffbot.xyz", "key"⟩
    (fun _ => Except.ok ⟨429, Json.null⟩) "/v1/ping" ⟨429, Json.null⟩ rfl).1 rfl

/-- C6: a `GameFlags` is constructible from every byte, `inner` returns
the byte unchanged, `trash`/`thirdparty` read bits 0 and 1, the four
concrete bit patterns behave as stated, and the deserializer accepts the
byte. -/
theorem c6_game_flags_bits (b : Nat) (h : b ≤ 255) :
    ((GameFlags.mk b).inner = b ∧
     ((GameFlags.mk b).trash = true ↔ b.testBit 0 = true) ∧
     ((GameFlags.mk b).thirdparty = true ↔ b.testBit 1 = true) ∧
     decodeGameFlags (Json.num (Int.ofNat b)) = some (GameFlags.mk b)) ∧
    ((GameFlags.mk 1).trash = true ∧ (GameFlags.mk 1).thirdparty = false ∧
     (GameFlags.mk 2).trash = false ∧ (GameFlags.mk 2).thirdparty = true ∧
     (GameFlags.mk 3).trash = true ∧ (GameFlags.mk 3).thirdparty = true ∧
     (GameFlags.mk 0).trash = false ∧ (GameFlags.mk 0).thirdparty = false) := by
  refine ⟨⟨rfl, ?_, ?_, ?_⟩, by decide⟩
  · simp [GameFlags.trash, GameFlags.bit, Nat.testBit_to_div_mod,
      Nat.and_one_is_mod, Nat.shiftRight_eq_div_pow]
  · simp [GameFlags.thirdparty, GameFlags.bit, Nat.testBit_to_div_mod,
      Nat.and_one_is_mod, Nat.shiftRight_eq_div_pow]
  · simp only [decodeGameFlags]
    rw [if_pos ⟨Int.ofNat_nonneg b, Int.ofNat_le.mpr h⟩]
    simp

/-- Witness for C6 at the byte 2. -/
theorem c6_game_flags_bits_witness :
    (GameFlags.mk 2).inner = 2 ∧
    decodeGameFlags (Json.num (Int.ofNat 2)) = some (GameFlags.mk 2) :=
  ⟨((c6_game_flags_bits 2 (by decide)).1).1,
   ((c6_game_flags_bits 2 (by decide)).1).2.2.2⟩

/-- C8: a non-empty batch issues exactly one request, whose path joins the
decimal identifier strings with the literal `+` in the given order; the
statement holds for every non-empty list, so no client-side batch-size
limit is enforced, and the four-identifier example builds the expected
path. -/
theorem c8_game_details_path (c : Client)
    (execute : Request → Except Unit Response) (games : List GameId)
    (h : games ≠ []) :
    (c.game_details execute games).1 =
      [c.build_request
        ("/v1/game/" ++ plusJoined (games.map (fun id => toString id)) ++
          "/info")] ∧
    (c.game_details execute [1234, 5678, 1020, 2030]).1 =
      [c.build_request "/v1/game/1234+5678+1020+2030/info"] := by
  constructor
  · match games with
    | [] => exact absurd rfl h
    | g :: gs => simp [Client.game_details, foldl_plus_eq_plusJoined]
  · rfl

/-- Witness for C8 at the four-identifier batch of the spec. -/
theorem c8_game_details_path_witness :
    (Client.game_details ⟨"https://api.freestuffbot.xyz", "key"⟩
        (fun _ => Except.error ()) [1234, 5678, 1020, 2030]).1 =
      [Client.build_request ⟨"https://api.freestuffbot.xyz", "key"⟩
        "/v1/game/1234+5678+1020+2030/info"] :=
  (c8_game_details_path ⟨"https://api.freestuffbot.xyz", "key"⟩
    (fun _ => Except.error ()) [1234, 5678, 1020, 2030] (by decide)).2

/-- C9: the one request `send_request` hands to the transport carries the
`Authorization` header whose value is the string "Basic " followed by the
configured key byte-for-byte (the key is inserted raw, not base64-encoded),
and `send_request` consults the transport only on that request. -/
theorem c9_authorization_header_raw (c : Client) (endpoint : String) :
    ((c.build_request endpoint).headers =
        [("Authorization", "Basic " ++ c.api_key)] ∧
     ("Basic " ++ c.api_key).data = "Basic ".data ++ c.api_key.data) ∧
    (∀ e1 e2 : Request → Except Unit Response,
      e1 (c.build_request endpoint) = e2 (c.build_request endpoint) →
      c.send_request e1 endpoint = c.send_request e2 endpoint) := by
  refine ⟨⟨rfl, rfl⟩, ?_⟩
  intro e1 e2 h
  simp [Client.send_request, h]

/-- C10: the envelope decoder requires the `data` key to be present and to
parse even when `message` is present — otherwise the whole envelope is a
decode error, never an API-level error — and `decode_and_extract` reaches
the API-level error only through an envelope that decoded successfully
(so its `data` also parsed). -/
theorem c10_envelope_data_required (Data : Type)
    (decData : Json → Option Data) :
    (∀ fields, lookupKey fields "data" = none →
      decodeApiResponse decData (Json.obj fields) = none) ∧
    (∀ fields v, lookupKey fields "data" = some v → decData v = none →
      decodeApiResponse decData (Json.obj fields) = none) ∧
    (∀ response msg,
      decode_and_extract decData response =
          Except.error (ClientError.API msg) →
      ∃ r, decodeApiResponse decData response.body = some r ∧
        r.message = some msg) ∧
    (∀ fields r, decodeApiResponse decData (Json.obj fields) = some r →
      ∃ v, lookupKey fields "data" = some v ∧ decData v = some r.data) := by
  refine ⟨?_, ?_, ?_, ?_⟩
  · intro fields h
    have hd : reqField decData fields "data" = none := by
      simp [reqField, h]
    cases h1 : reqField decodeBool fields "success" <;>
      cases h2 : decodeOptField decodeStr (lookupKey fields "error") <;>
        cases h3 : decodeOptField decodeStr (lookupKey fields "message") <;>
          simp [decodeApiResponse, h1, h2, h3, hd]
  · intro fields v hv hnone
    have hd : reqField decData fields "data" = none := by
      simp [reqField, hv, hnone]
    cases h1 : reqField decodeBool fields "success" <;>
      cases h2 : decodeOptField decodeStr (lookupKey fields "error") <;>
        cases h3 : decodeOptField decodeStr (lookupKey fields "message") <;>
          simp [decodeApiResponse, h1, h2, h3, hd]
  · intro response msg h
    cases hd : decodeApiResponse decData response.body with
    | none => simp [decode_and_extract, hd] at h
    | some r =>
      refine ⟨r, rfl, ?_⟩
      cases hm : r.message with
      | none =>
        have : r.into_data = Except.ok r.data := by
          simp [ApiResponse.into_data, hm]
        simp [decode_and_extract, hd, this] at h
      | some m =>
        have hi : r.into_data = Except.error m := by
          simp [ApiResponse.into_data, hm]
        simp [decode_and_extract, hd, hi] at h
        simp [hm, h]
  · intro fields r h
    cases h1 : reqField decodeBool fields "success" <;>
      cases h2 : decodeOptField decodeStr (lookupKey fields "error") <;>
        cases h3 : decodeOptField decodeStr (lookupKey fields "message") <;>
          cases h4 : reqField decData fields "data" <;>
            simp [decodeApiResponse, h1, h2, h3, h4] at h
    rename_i success error message data
    obtain ⟨v, hv, hdec⟩ := Option.bind_eq_some.mp h4
    exact ⟨v, by simpa [lookupKey] using hv, by simp [← h, hdec]⟩

end Freestuff
